import Mathlib

/-!
Verification of `calculate_B_xenon.py`.

The script has two functions:

* `calculate_B_xenon(voltage_xe, charge_state_ze)` — pure floating-point
  arithmetic computing `B_HE * sqrt(MASS_RATIO_XE_HE) * sqrt(Z_HE /
  charge_state_ze) * sqrt(voltage_xe / V_HE)`;
* `generate_feasibility_table()` — prints a fixed banner/header, then one
  formatted row per voltage in `range(100, 1001, 100)` with the calculator's
  results for charge states 1, 2, 3, then a footer line.

Python floats are modelled by real numbers.  The two fault conditions of the
Python code are modelled by `Option`:

* `Z_HE / charge_state_ze` raises `ZeroDivisionError` when the charge state
  is zero;
* `math.sqrt` raises `ValueError` on a negative argument (which happens
  exactly when the charge state or the voltage is negative).

Console output is modelled as the list of printed lines; the table generator
returns `none` when any calculator call faults (the Python run would die with
an uncaught exception before printing the full table).
-/

namespace SMRS

/-- `B_HE = 0.110` — Tesla (from Rev 1.2). -/
def B_HE : ℝ := 0.110

/-- `V_HE = 100.0` — Volts (from Rev 1.2). -/
def V_HE : ℝ := 100.0

/-- `Z_HE = 1` — charge state (He+).  An `int` in Python, but it is only used
in the true division `Z_HE / charge_state_ze`, so we model it as a real. -/
def Z_HE : ℝ := 1

/-- `MASS_RATIO_XE_HE = 130.90508414 / 4.002603254` — Xe-131 over He-4. -/
noncomputable def MASS_RATIO_XE_HE : ℝ := 130.90508414 / 4.002603254

/-- Shallow embedding of `calculate_B_xenon`.  The guards mirror the Python
faults in evaluation order: `Z_HE / charge_state_ze` raises
`ZeroDivisionError` for a zero charge state; `math.sqrt` raises `ValueError`
when its argument is negative (for `term_charge` when the charge state is
negative, for `term_voltage` when the voltage is negative). -/
noncomputable def calculate_B_xenon (voltage_xe charge_state_ze : ℝ) : Option ℝ :=
  if charge_state_ze = 0 then none
  else if Z_HE / charge_state_ze < 0 then none
  else if voltage_xe / V_HE < 0 then none
  else
    some (B_HE * Real.sqrt MASS_RATIO_XE_HE * Real.sqrt (Z_HE / charge_state_ze) *
      Real.sqrt (voltage_xe / V_HE))

/-- The value `calculate_B_xenon` returns on in-domain inputs. -/
noncomputable def B_value (voltage_xe charge_state_ze : ℝ) : ℝ :=
  B_HE * Real.sqrt MASS_RATIO_XE_HE * Real.sqrt (Z_HE / charge_state_ze) *
    Real.sqrt (voltage_xe / V_HE)

lemma calculate_B_xenon_eq_some {V z : ℝ} (hV : 0 ≤ V) (hz : 0 < z) :
    calculate_B_xenon V z = some (B_value V z) := by
  unfold calculate_B_xenon B_value
  rw [if_neg (ne_of_gt hz), if_neg, if_neg]
  · exact not_lt.mpr (div_nonneg hV (by norm_num [V_HE]))
  · exact not_lt.mpr (div_nonneg (by norm_num [Z_HE]) hz.le)

/-! ### Formatting and the table generator -/

/-- Python's left-align format `{s:<w}`: pad `s` on the right with spaces up
to width `w` (no padding when `s` is already at least `w` long). -/
def padLeft15 (s : String) : String :=
  s ++ String.mk (List.replicate (15 - s.length) ' ')

/-- Zero-pad a natural number below 1000 to three digits (the fractional part
of a `%.3f` rendering). -/
def pad3 (m : ℕ) : String :=
  if m < 10 then "00" ++ toString m
  else if m < 100 then "0" ++ toString m
  else toString m

/-- Python's fixed-point format `{x:.3f}` for the nonnegative values appearing
in the table: round `1000 * x` to the nearest integer and print it with three
digits after the decimal point.  (CPython rounds the binary double to three
decimals with ties-to-even; the table values are irrational, so no tie can
occur and nearest-integer rounding is exact for them.) -/
noncomputable def fmtFixed3 (x : ℝ) : String :=
  toString ((round (1000 * x)).toNat / 1000) ++ "." ++ pad3 ((round (1000 * x)).toNat % 1000)

/-- One data row of the table:
`f"{v:<15} | {b_z1:<15.3f} | {b_z2:<15.3f} | {b_z3:<15.3f}"`. -/
noncomputable def dataRow (v : ℕ) (b_z1 b_z2 b_z3 : ℝ) : String :=
  padLeft15 (toString v) ++ " | " ++ padLeft15 (fmtFixed3 b_z1) ++ " | " ++
    padLeft15 (fmtFixed3 b_z2) ++ " | " ++ padLeft15 (fmtFixed3 b_z3)

/-- The 73-dash separator line of the table. -/
def sepLine : String :=
  "-------------------------------------------------------------------------"

/-- First banner line. -/
def bannerLine1 : String := "PHASE 0 DATA: Required Magnetic Flux Density (B) in Tesla"

/-- Second banner line. -/
def bannerLine2 : String := "Target Parameter: L/r ≈ 3.81 (from He benchmark )"

/-- The column-header line
`f"{'Voltage (V)':<15} | {'B-Field (z=1)':<15} | ..."`. -/
def headerLine : String :=
  padLeft15 "Voltage (V)" ++ " | " ++ padLeft15 "B-Field (z=1)" ++ " | " ++
    padLeft15 "B-Field (z=2)" ++ " | " ++ padLeft15 "B-Field (z=3)"

/-- Python `range(start, stop, step)` for a positive step. -/
def pyRange (start stop step : ℕ) : List ℕ :=
  (List.range ((stop - start + step - 1) / step)).map (fun i => start + step * i)

/-- One iteration of the table loop: the three calculator calls and the
printed row.  `none` models the loop dying on an uncaught exception. -/
noncomputable def tableRow (v : ℕ) : Option String := do
  let b_z1 ← calculate_B_xenon (v : ℝ) 1
  let b_z2 ← calculate_B_xenon (v : ℝ) 2
  let b_z3 ← calculate_B_xenon (v : ℝ) 3
  pure (dataRow v b_z1 b_z2 b_z3)

/-- Shallow embedding of `generate_feasibility_table`: the list of lines the
script prints, in order, or `none` if a calculator call faults. -/
noncomputable def generate_feasibility_table : Option (List String) :=
  ((pyRange 100 1001 100).mapM tableRow).map fun rows =>
    [sepLine, bannerLine1, bannerLine2, sepLine, headerLine, sepLine] ++ rows ++ [sepLine]

/-! ### Spec-side definitions (for the refinement-style claims) -/

/-- The spec's formula for the calculator, with the spec's constants written
out literally: `B_ref * sqrt(mass_ratio) * sqrt(z_ref / z) * sqrt(V / V_ref)`
with `B_ref = 0.110`, `V_ref = 100.0`, `z_ref = 1`,
`mass_ratio = 130.90508414 / 4.002603254`. -/
noncomputable def specFormula (V z : ℝ) : ℝ :=
  0.110 * Real.sqrt (130.90508414 / 4.002603254) * Real.sqrt (1 / z) *
    Real.sqrt (V / 100.0)

/-- The single coefficient of the commented-out "Simplified Predictive
Equation": `C = B_HE * sqrt(MASS_RATIO_XE_HE) / sqrt(V_HE)` (≈ 0.062907). -/
noncomputable def C_simplified : ℝ := B_HE * Real.sqrt MASS_RATIO_XE_HE / Real.sqrt V_HE

/-- The commented-out one-coefficient form `B_xe = C * sqrt(V / z)`. -/
noncomputable def calculate_B_xenon_simplified (V z : ℝ) : ℝ :=
  C_simplified * Real.sqrt (V / z)

/-! ### Numeric helper lemmas -/

lemma sqrt_MR_lb : 5.71875 ≤ Real.sqrt MASS_RATIO_XE_HE := by
  rw [show (5.71875 : ℝ) = Real.sqrt (5.71875 ^ 2) from
    (Real.sqrt_sq (by norm_num)).symm]
  exact Real.sqrt_le_sqrt (by norm_num [MASS_RATIO_XE_HE])

lemma sqrt_MR_ub : Real.sqrt MASS_RATIO_XE_HE ≤ 5.7189 := by
  rw [Real.sqrt_le_iff]
  constructor
  · norm_num
  · norm_num [MASS_RATIO_XE_HE]

lemma B_HE_eq : B_HE = 0.110 := rfl

lemma V_HE_eq : V_HE = 100 := by norm_num [V_HE]

lemma Z_HE_eq : Z_HE = 1 := rfl

/-! ### Claim theorems -/

/-- C7: calling `calculate_B_xenon` with charge state `0` hits the
`ZeroDivisionError` fault (modelled as `none`); it never returns a value. -/
theorem spec_C7 (V : ℝ) : calculate_B_xenon V 0 = none := by
  unfold calculate_B_xenon
  rw [if_pos rfl]

/-- C8: for every charge state `z ≥ 1`, `calculate_B_xenon 0 z` returns
exactly `0` as a legitimate result, not a fault. -/
theorem spec_C8 (z : ℝ) (hz : 1 ≤ z) : calculate_B_xenon 0 z = some 0 := by
  rw [calculate_B_xenon_eq_some le_rfl (lt_of_lt_of_le one_pos hz)]
  unfold B_value
  rw [zero_div, Real.sqrt_zero, mul_zero]

/-- Witness for C8 at `z = 1`. -/
theorem spec_C8_witness : calculate_B_xenon 0 1 = some 0 :=
  spec_C8 1 le_rfl

/-- C1 (amended): for every voltage `V ≥ 0` and charge state `z > 0`,
`calculate_B_xenon V z` equals the spec's formula
`B_ref * sqrt(mass_ratio) * sqrt(z_ref / z) * sqrt(V / V_ref)` with
`B_ref = 0.110`, `V_ref = 100.0`, `z_ref = 1`,
`mass_ratio = 130.90508414 / 4.002603254`. -/
theorem spec_C1 (V z : ℝ) (hV : 0 ≤ V) (hz : 0 < z) :
    calculate_B_xenon V z = some (specFormula V z) := by
  rw [calculate_B_xenon_eq_some hV hz]
  rfl

/-- Witness for C1 at `(V, z) = (100, 1)`. -/
theorem spec_C1_witness : calculate_B_xenon 100 1 = some (specFormula 100 1) :=
  spec_C1 100 1 (by norm_num) one_pos

/-- Counterexample for C1 as stated: at the negative voltage `V = -100` (and
`z = 1 > 0`) the code raises `ValueError` in `math.sqrt` instead of returning
the formula's value. -/
theorem spec_C1_counterexample :
    calculate_B_xenon (-100) 1 ≠ some (specFormula (-100) 1) := by
  unfold calculate_B_xenon
  rw [if_neg (by norm_num), if_neg (by norm_num [Z_HE]), if_pos (by norm_num [V_HE])]
  exact fun h => Option.noConfusion h

/-- C2 (amended): `calculate_B_xenon 100 1` equals
`0.110 * sqrt(130.90508414 / 4.002603254)`, which is `0.629071` to within
`1e-5` — the benchmark value `0.110` multiplied by the square root of the
mass ratio, not `0.110` itself. -/
theorem spec_C2 :
    calculate_B_xenon 100 1 = some (B_HE * Real.sqrt MASS_RATIO_XE_HE) ∧
      |B_HE * Real.sqrt MASS_RATIO_XE_HE - 0.629071| ≤ 1e-5 := by
  constructor
  · rw [calculate_B_xenon_eq_some (by norm_num) one_pos]
    unfold B_value
    rw [Z_HE_eq, V_HE_eq, div_one, div_self (by norm_num : (100 : ℝ) ≠ 0),
      Real.sqrt_one, mul_one, mul_one]
  · have h1 := sqrt_MR_lb
    have h2 := sqrt_MR_ub
    rw [B_HE_eq, abs_le]
    constructor <;> nlinarith

/-- Counterexample for C2 as stated: the value returned at `(100, 1)` is not
within `1e-9` of `0.110` (it exceeds `0.6`). -/
theorem spec_C2_counterexample :
    ¬ ∃ b, calculate_B_xenon 100 1 = some b ∧ |b - 0.110| ≤ 1e-9 := by
  rintro ⟨b, hb, habs⟩
  rw [calculate_B_xenon_eq_some (by norm_num) one_pos, Option.some_inj] at hb
  have hB : B_value 100 1 = B_HE * Real.sqrt MASS_RATIO_XE_HE := by
    unfold B_value
    rw [Z_HE_eq, V_HE_eq, div_one, div_self (by norm_num : (100 : ℝ) ≠ 0),
      Real.sqrt_one, mul_one, mul_one]
  have h1 := sqrt_MR_lb
  rw [abs_le] at habs
  have := habs.2
  rw [← hb, hB, B_HE_eq] at this
  nlinarith

lemma sqrt_four : Real.sqrt 4 = 2 := by
  rw [show (4 : ℝ) = 2 ^ 2 by norm_num, Real.sqrt_sq (by norm_num)]

lemma B_value_pos {V z : ℝ} (hV : 0 < V) (hz : 0 < z) : 0 < B_value V z := by
  unfold B_value
  have hMR : (0 : ℝ) < MASS_RATIO_XE_HE := by norm_num [MASS_RATIO_XE_HE]
  refine mul_pos (mul_pos (mul_pos ?_ ?_) ?_) ?_
  · rw [B_HE_eq]; norm_num
  · exact Real.sqrt_pos.mpr hMR
  · exact Real.sqrt_pos.mpr (div_pos (by rw [Z_HE_eq]; norm_num) hz)
  · exact Real.sqrt_pos.mpr (div_pos hV (by rw [V_HE_eq]; norm_num))

lemma B_value_lt_of_voltage {V V' z : ℝ} (hV : 0 ≤ V) (hz : 0 < z)
    (hVV : V < V') : B_value V z < B_value V' z := by
  unfold B_value
  have hpre : 0 < B_HE * Real.sqrt MASS_RATIO_XE_HE * Real.sqrt (Z_HE / z) := by
    refine mul_pos (mul_pos ?_ ?_) ?_
    · rw [B_HE_eq]; norm_num
    · exact Real.sqrt_pos.mpr (by norm_num [MASS_RATIO_XE_HE])
    · exact Real.sqrt_pos.mpr (div_pos (by rw [Z_HE_eq]; norm_num) hz)
  refine mul_lt_mul_of_pos_left ?_ hpre
  refine Real.sqrt_lt_sqrt (div_nonneg hV (by rw [V_HE_eq]; norm_num)) ?_
  rw [V_HE_eq]
  linarith

lemma B_value_lt_of_charge {V z z' : ℝ} (hV : 0 < V) (hz : 0 < z)
    (hzz : z < z') : B_value V z' < B_value V z := by
  unfold B_value
  have hBm : 0 < B_HE * Real.sqrt MASS_RATIO_XE_HE := by
    refine mul_pos ?_ ?_
    · rw [B_HE_eq]; norm_num
    · exact Real.sqrt_pos.mpr (by norm_num [MASS_RATIO_XE_HE])
  have htv : 0 < Real.sqrt (V / V_HE) :=
    Real.sqrt_pos.mpr (div_pos hV (by rw [V_HE_eq]; norm_num))
  refine mul_lt_mul_of_pos_right (mul_lt_mul_of_pos_left ?_ hBm) htv
  refine Real.sqrt_lt_sqrt (div_nonneg (by rw [Z_HE_eq]; norm_num)
    (le_of_lt (lt_trans hz hzz))) ?_
  rw [Z_HE_eq]
  exact one_div_lt_one_div_of_lt hz hzz

/-- C3: for voltages `0 < V < V'` and charge states `1 ≤ z < z'`, the result
at `(V, z)` is a positive value, the calculator succeeds at `(V', z)` and
`(V, z')`, and it is strictly increasing in the voltage and strictly
decreasing in the charge state. -/
theorem spec_C3 (V V' z z' : ℝ) (hV : 0 < V) (hz : 1 ≤ z) (hVV : V < V')
    (hzz : z < z') :
    (∃ b, calculate_B_xenon V z = some b ∧ 0 < b) ∧
      calculate_B_xenon V z = some (B_value V z) ∧
      calculate_B_xenon V' z = some (B_value V' z) ∧
      calculate_B_xenon V z' = some (B_value V z') ∧
      B_value V z < B_value V' z ∧ B_value V z' < B_value V z := by
  have hz0 : 0 < z := lt_of_lt_of_le one_pos hz
  refine ⟨⟨B_value V z, calculate_B_xenon_eq_some hV.le hz0, B_value_pos hV hz0⟩,
    calculate_B_xenon_eq_some hV.le hz0,
    calculate_B_xenon_eq_some (le_trans hV.le hVV.le) hz0,
    calculate_B_xenon_eq_some hV.le (lt_trans hz0 hzz),
    B_value_lt_of_voltage hV.le hz0 hVV,
    B_value_lt_of_charge hV hz0 hzz⟩

/-- Witness for C3 at `V = 100`, `V' = 200`, `z = 1`, `z' = 2`. -/
theorem spec_C3_witness :
    (∃ b, calculate_B_xenon 100 1 = some b ∧ 0 < b) ∧
      calculate_B_xenon 100 1 = some (B_value 100 1) ∧
      calculate_B_xenon 200 1 = some (B_value 200 1) ∧
      calculate_B_xenon 100 2 = some (B_value 100 2) ∧
      B_value 100 1 < B_value 200 1 ∧ B_value 100 2 < B_value 100 1 :=
  spec_C3 100 200 1 2 (by norm_num) le_rfl (by norm_num) (by norm_num)

/-- C4: `calculate_B_xenon (4 * V) z` equals twice `calculate_B_xenon V z`
for every voltage and charge state (both faulting together out of domain). -/
theorem spec_C4 (V z : ℝ) :
    calculate_B_xenon (4 * V) z = (calculate_B_xenon V z).map fun b => 2 * b := by
  have h4 : (4 * V) / V_HE = 4 * (V / V_HE) := mul_div_assoc 4 V V_HE
  unfold calculate_B_xenon
  by_cases hz : z = 0
  · rw [if_pos hz, if_pos hz]
    rfl
  · rw [if_neg hz, if_neg hz]
    by_cases hc : Z_HE / z < 0
    · rw [if_pos hc, if_pos hc]
      rfl
    · rw [if_neg hc, if_neg hc]
      by_cases hV : V / V_HE < 0
      · rw [if_pos hV, if_pos (show (4 * V) / V_HE < 0 by rw [h4]; linarith)]
        rfl
      · rw [if_neg hV, if_neg (show ¬ (4 * V) / V_HE < 0 by
          rw [h4]; intro h; exact hV (by linarith))]
        rw [Option.map_some']
        congr 1
        rw [h4, Real.sqrt_mul (by norm_num : (0 : ℝ) ≤ 4), sqrt_four]
        ring

/-- C5: `calculate_B_xenon V (4 * z)` equals half `calculate_B_xenon V z`
for every voltage and charge state (both faulting together out of domain). -/
theorem spec_C5 (V z : ℝ) :
    calculate_B_xenon V (4 * z) = (calculate_B_xenon V z).map fun b => 0.5 * b := by
  have h4 : Z_HE / (4 * z) = (Z_HE / z) / 4 := by
    rw [div_div, mul_comm]
  unfold calculate_B_xenon
  by_cases hz : z = 0
  · rw [if_pos hz, if_pos (by rw [hz, mul_zero])]
    rfl
  · rw [if_neg hz, if_neg (by simpa using hz)]
    by_cases hc : Z_HE / z < 0
    · rw [if_pos hc, if_pos (by rw [h4]; linarith)]
      rfl
    · rw [if_neg hc, if_neg (show ¬ Z_HE / (4 * z) < 0 by
        rw [h4]; intro h; exact hc (by linarith))]
      by_cases hV : V / V_HE < 0
      · rw [if_pos hV, if_pos hV]
        rfl
      · rw [if_neg hV, if_neg hV]
        rw [Option.map_some']
        congr 1
        rw [h4, show (Z_HE / z) / 4 = (Z_HE / z) * (1 / 4) by ring,
          Real.sqrt_mul (not_lt.mp hc), show (1 : ℝ) / 4 = (1 / 2) ^ 2 by norm_num,
          Real.sqrt_sq (by norm_num)]
        ring

/-- C10: on its whole domain (`V ≥ 0`, `z > 0`) the four-factor formula of
`calculate_B_xenon` coincides exactly (over the reals) with the commented-out
one-coefficient form `C * sqrt(V / z)`,
`C = B_HE * sqrt(MASS_RATIO_XE_HE) / sqrt(V_HE)`, and `C` is `0.062907` to
within `1e-6`. -/
theorem spec_C10 :
    (∀ V z : ℝ, 0 ≤ V → 0 < z →
        calculate_B_xenon V z = some (calculate_B_xenon_simplified V z)) ∧
      |C_simplified - 0.062907| ≤ 1e-6 := by
  constructor
  · intro V z hV hz
    rw [calculate_B_xenon_eq_some hV hz]
    unfold B_value calculate_B_xenon_simplified C_simplified
    congr 1
    rw [Z_HE_eq, V_HE_eq, Real.sqrt_div hV z, Real.sqrt_div hV 100,
      show (100 : ℝ) = 10 ^ 2 by norm_num, Real.sqrt_sq (by norm_num : (0:ℝ) ≤ 10),
      one_div, Real.sqrt_inv]
    ring
  · have h1 := sqrt_MR_lb
    have h2 := sqrt_MR_ub
    unfold C_simplified
    rw [B_HE_eq, V_HE_eq, show (100 : ℝ) = 10 ^ 2 by norm_num,
      Real.sqrt_sq (by norm_num : (0:ℝ) ≤ 10), abs_le]
    constructor <;> nlinarith

/-- Witness for C10 at `(V, z) = (100, 1)`. -/
theorem spec_C10_witness :
    calculate_B_xenon 100 1 = some (calculate_B_xenon_simplified 100 1) :=
  spec_C10.1 100 1 (by norm_num) one_pos

lemma mapM_eq_map {α β : Type} (f : α → Option β) (g : α → β) (l : List α)
    (h : ∀ a ∈ l, f a = some (g a)) : l.mapM f = some (l.map g) := by
  induction l with
  | nil => rfl
  | cons a t ih =>
    rw [List.mapM_cons, h a (List.mem_cons_self a t), List.map_cons,
      ih fun b hb => h b (List.mem_cons_of_mem a hb)]
    rfl

lemma tableRow_eq (v : ℕ) :
    tableRow v = some (dataRow v (B_value v 1) (B_value v 2) (B_value v 3)) := by
  unfold tableRow
  rw [calculate_B_xenon_eq_some (Nat.cast_nonneg v) one_pos,
    calculate_B_xenon_eq_some (Nat.cast_nonneg v) (by norm_num : (0 : ℝ) < 2),
    calculate_B_xenon_eq_some (Nat.cast_nonneg v) (by norm_num : (0 : ℝ) < 3)]
  rfl

lemma pyRange_100 :
    pyRange 100 1001 100 = (List.range 10).map fun i => 100 * (i + 1) := by
  decide

/-- C6: the table consists of the fixed banner, header, and separator lines,
then exactly one data row per voltage `100 * (i + 1)` for `i = 0, …, 9` (so
10 rows, ascending), each row being the voltage left-aligned to width 15 and
the calculator's three outputs (charge states 1, 2, 3) formatted `.3f`
left-aligned to width 15, joined by `" | "`, then the footer separator. -/
theorem spec_C6 :
    generate_feasibility_table =
      some ([sepLine, bannerLine1, bannerLine2, sepLine, headerLine, sepLine] ++
          ((List.range 10).map fun i =>
            dataRow (100 * (i + 1)) (B_value (100 * (i + 1) : ℕ) 1)
              (B_value (100 * (i + 1) : ℕ) 2) (B_value (100 * (i + 1) : ℕ) 3)) ++
          [sepLine]) ∧
      ((List.range 10).map fun i => 100 * (i + 1)).length = 10 ∧
      ∀ V z : ℝ, 0 ≤ V → 0 < z → calculate_B_xenon V z = some (B_value V z) := by
  refine ⟨?_, by simp, fun V z hV hz => calculate_B_xenon_eq_some hV hz⟩
  unfold generate_feasibility_table
  rw [mapM_eq_map tableRow
      (fun v => dataRow v (B_value v 1) (B_value v 2) (B_value v 3)) _
      (fun v _ => tableRow_eq v),
    Option.map_some', pyRange_100, List.map_map]
  rfl

/-- Witness for C6 at `(V, z) = (200, 2)`. -/
theorem spec_C6_witness : calculate_B_xenon 200 2 = some (B_value 200 2) :=
  spec_C6.2.2 200 2 (by norm_num) (by norm_num)

/-- C9: every calculator call issued by the table loop (voltages from
`range(100, 1001, 100)`, charge states 1, 2, 3) is in-domain and succeeds, so
the generator never hits the fault branch and produces the complete 17-line
table. -/
theorem spec_C9 :
    (∀ v ∈ pyRange 100 1001 100, ∀ z ∈ ([1, 2, 3] : List ℝ),
        (calculate_B_xenon (v : ℝ) z).isSome) ∧
      ∃ lines, generate_feasibility_table = some lines ∧ lines.length = 17 := by
  constructor
  · intro v _ z hz
    have hz0 : 0 < z := by
      simp only [List.mem_cons, List.mem_singleton, List.not_mem_nil, or_false] at hz
      rcases hz with rfl | rfl | rfl <;> norm_num
    rw [calculate_B_xenon_eq_some (Nat.cast_nonneg v) hz0]
    rfl
  · refine ⟨[sepLine, bannerLine1, bannerLine2, sepLine, headerLine, sepLine] ++
        ((pyRange 100 1001 100).map fun v =>
          dataRow v (B_value v 1) (B_value v 2) (B_value v 3)) ++ [sepLine],
      ?_, ?_⟩
    · unfold generate_feasibility_table
      rw [mapM_eq_map tableRow
          (fun v => dataRow v (B_value v 1) (B_value v 2) (B_value v 3)) _
          (fun v _ => tableRow_eq v),
        Option.map_some']
    · simp [pyRange_100]

/-- Witness for C9 at `v = 100`, `z = 1`. -/
theorem spec_C9_witness : (calculate_B_xenon ((100 : ℕ) : ℝ) 1).isSome :=
  spec_C9.1 100 (by decide) 1 (by simp)

end SMRS
